import Mathlib

/-!
Verification development for the dood-cli secure-messaging core
(src/messages.rs, src/database.rs), a double-ratchet messaging client.

The orchestration layer (send_message, process_received_message,
is_old_message, get_or_initialize_receiver_ratchet, load_ratchet_state,
save_ratchet_state, the fetch loop) is embedded directly from
src/messages.rs.  The cryptographic primitives (the dood_encryption
crate: X3DH and DoubleRatchet) are external to the repository and are
modelled from the spec, which scopes them out as the "Primitive
Provider": key agreement where both sides derive the same root key,
KDF chains, AEAD that returns the plaintext exactly under the right
key and associated data, and the skipped-message-key machinery of
§4.5 step 4.
-/

namespace Dood

/-- Modelled from the spec: an abstract public-key operation for the
Primitive Provider (X25519 stand-in); only the agreement property
`dh a (pub b) = dh b (pub a)` matters for the claims. -/
def pub (x : Nat) : Nat := x

/-- Modelled from the spec: Diffie-Hellman of an own private key with a
remote public key. -/
def dh (priv other : Nat) : Nat := priv * other

theorem dh_pub_comm (a b : Nat) : dh a (pub b) = dh b (pub a) := by
  simp [dh, pub, Nat.mul_comm]

/-- Modelled from the spec: root-key KDF step, producing a new root key
and a chain key. -/
def kdfRk (rk d : Nat) : Nat × Nat :=
  (Nat.pair (Nat.pair rk d) 0, Nat.pair (Nat.pair rk d) 1)

/-- Modelled from the spec: chain-key KDF step, producing the next chain
key and a message key. -/
def kdfCk (ck : Nat) : Nat × Nat :=
  (Nat.pair ck 2, Nat.pair ck 3)

/-- Encoding of an optional one-time pre-key into the shared-secret
derivation. -/
def encOpt : Option Nat → Nat
  | none => 0
  | some k => k + 1

/-- Modelled from the spec: the X3DH shared secret, a function of the
public values both parties can compute, so initiator and responder
derive the same root key. -/
def x3dhShared (aId aEph bId bPre : Nat) (otk : Option Nat) : Nat :=
  Nat.pair (Nat.pair aId aEph) (Nat.pair (Nat.pair bId bPre) (encOpt otk))

/-- A local account's X3DH private key material (X3DH struct of the
provider crate, reconstructed by auth::get_current_x3dh). -/
structure Account where
  idPriv : Nat
  preKeyPriv : Nat
  oneTimePriv : Option Nat
deriving Repr, DecidableEq

/-- X3DHKeyBundle (src/messages.rs parse_key_bundle): a peer's published
public bundle. The signature field is validated by the provider and not
consulted by any claim. -/
structure KeyBundle where
  identity_key : Nat
  signed_pre_key : Nat
  one_time_pre_key : Option Nat
deriving Repr, DecidableEq

/-- The public bundle a server fetch returns for account `b`. -/
def bundleOf (b : Account) : KeyBundle :=
  { identity_key := pub b.idPriv
    signed_pre_key := pub b.preKeyPriv
    one_time_pre_key := b.oneTimePriv.map pub }

/-- Modelled from the spec: deterministic stand-in for the initiator's
fresh ratchet key-pair generation. -/
def genEph (a : Account) : Nat := Nat.pair a.idPriv 1

/-- Result of X3DH::initiate_key_agreement as consumed by send_message. -/
structure X3DHResult where
  rk : Nat
  alice_identity_pub : Nat
  alice_dhs : Nat
  bob_public_key : Nat
  bob_one_time_pre_key : Option Nat
deriving Repr, DecidableEq

/-- Modelled from the spec: X3DH::initiate_key_agreement (initiator
path of §4.3). -/
def initiate_key_agreement (a : Account) (bundle : KeyBundle) : X3DHResult :=
  let eph := genEph a
  { rk := x3dhShared (pub a.idPriv) (pub eph) bundle.identity_key
      bundle.signed_pre_key bundle.one_time_pre_key
    alice_identity_pub := pub a.idPriv
    alice_dhs := eph
    bob_public_key := bundle.signed_pre_key
    bob_one_time_pre_key := bundle.one_time_pre_key }

/-- Modelled from the spec: X3DH::respond_to_key_agreement (responder
path of §4.3). -/
def respond_to_key_agreement (b : Account) (aliceIdPub aliceDhPub : Nat)
    (otk : Option Nat) : Nat :=
  x3dhShared aliceIdPub aliceDhPub (pub b.idPriv) (pub b.preKeyPriv) otk

/-- X3DH::get_pre_key_pair: the responder's ratchet key pair. -/
def get_pre_key_pair (b : Account) : Nat := b.preKeyPriv

/-- One entry of the skipped-message-key cache (mk_skipped); the source
calls the key field `mk`, which Lean reserves for the constructor. -/
structure SkippedKey where
  public_key : Nat
  n : Nat
  msg_key : Nat
deriving Repr, DecidableEq

/-- The DoubleRatchet state of the provider crate, as serialized into the
session store: root key, own ratchet private key, the current remote
ratchet public key, sending and receiving chain keys and counters, the
previous-chain length, and the skipped-message-key cache. -/
structure DoubleRatchet where
  rk : Nat
  dhs : Nat
  dh_public_r : Nat
  cks : Nat
  ckr : Nat
  ns : Nat
  nr : Nat
  pn : Nat
  mk_skipped : List SkippedKey
deriving Repr, DecidableEq

/-- ParsedHeader (DoubleRatchet::read_header result). -/
structure ParsedHeader where
  public_key : Nat
  n : Nat
  pn : Nat
deriving Repr, DecidableEq

/-- The x3dh_init handshake metadata embedded in a first envelope. -/
structure X3dhInit where
  sender_identity : Nat
  one_time_pre_key : Option Nat
deriving Repr, DecidableEq

/-- The structured (JSON) part of an envelope header. -/
structure HeaderJson where
  public_key : Nat
  n : Nat
  pn : Nat
  x3dh_init : Option X3dhInit
deriving Repr, DecidableEq

def encodeX3dh : Option X3dhInit → List Nat
  | none => [0]
  | some ⟨s, none⟩ => [1, s]
  | some ⟨s, some k⟩ => [2, s, k]

/-- Serialization of the structured header into wire bytes. -/
def encodeHeaderJson (h : HeaderJson) : List Nat :=
  h.public_key :: h.n :: h.pn :: encodeX3dh h.x3dh_init

def decodeX3dh : List Nat → Option (Option X3dhInit)
  | [0] => some none
  | [1, s] => some (some ⟨s, none⟩)
  | [2, s, k] => some (some ⟨s, some k⟩)
  | _ => none

/-- Parsing of the structured header from wire bytes (serde_json parse of
the header JSON). -/
def decodeHeaderJson : List Nat → Option HeaderJson
  | pk :: n :: pn :: rest => (decodeX3dh rest).map fun x =>
      { public_key := pk, n := n, pn := pn, x3dh_init := x }
  | _ => none

theorem decode_encode (h : HeaderJson) :
    decodeHeaderJson (encodeHeaderJson h) = some h := by
  rcases h with ⟨pk, n, pn, x⟩
  rcases x with _ | ⟨s, _ | k⟩ <;> rfl

/-- DoubleRatchet::read_header: the provider parses only the ratchet
fields of the structured header. -/
def read_header (bytes : List Nat) : Option ParsedHeader :=
  (decodeHeaderJson bytes).map fun h =>
    { public_key := h.public_key, n := h.n, pn := h.pn }

/-- Modelled from the spec: AEAD ciphertext binding the message key and
the associated data to the plaintext. -/
structure CipherText where
  msg_key : Nat
  ad : List Nat
  pt : List Nat
deriving Repr, DecidableEq

def aeadEncrypt (k : Nat) (ad pt : List Nat) : CipherText :=
  { msg_key := k, ad := ad, pt := pt }

def aeadDecrypt (k : Nat) (ad : List Nat) (ct : CipherText) : Option (List Nat) :=
  if ct.msg_key = k ∧ ct.ad = ad then some ct.pt else none

/-- The fixed 32-byte associated-data block at the front of every
envelope header. -/
def adBytes : List Nat := List.replicate 32 0

/-- DoubleRatchet::new_sender: fresh initiator state; the first root-KDF
application yields the sending chain, the second the receiving chain. -/
def new_sender (rk0 aliceDhs bobPub : Nat) : DoubleRatchet :=
  let s := kdfRk rk0 (dh aliceDhs bobPub)
  let r := kdfRk s.1 (dh aliceDhs bobPub)
  { rk := r.1, dhs := aliceDhs, dh_public_r := bobPub
    cks := s.2, ckr := r.2, ns := 0, nr := 0, pn := 0, mk_skipped := [] }

/-- DoubleRatchet::new_receiver: fresh responder state; the first
root-KDF application yields the receiving chain (matching the
initiator's sending chain), the second the sending chain. -/
def new_receiver (shared bobKp alicePub : Nat) : DoubleRatchet :=
  let r := kdfRk shared (dh bobKp alicePub)
  let s := kdfRk r.1 (dh bobKp alicePub)
  { rk := s.1, dhs := bobKp, dh_public_r := alicePub
    cks := s.2, ckr := r.2, ns := 0, nr := 0, pn := 0, mk_skipped := [] }

/-- Result of DoubleRatchet::ratchet_encrypt: header bytes
(32 associated-data bytes followed by the structured header) and the
ciphertext. -/
structure EncryptResult where
  header : List Nat
  cipher_text : CipherText
deriving Repr, DecidableEq

/-- Modelled from the spec: DoubleRatchet::ratchet_encrypt — derive the
next message key from the sending chain, build the header from the own
ratchet public key and the counters, advance Ns. -/
def ratchet_encrypt (s : DoubleRatchet) (pt : List Nat) :
    EncryptResult × DoubleRatchet :=
  let k := kdfCk s.cks
  let hj : HeaderJson :=
    { public_key := pub s.dhs, n := s.ns, pn := s.pn, x3dh_init := none }
  ({ header := adBytes ++ encodeHeaderJson hj
     cipher_text := aeadEncrypt k.2 adBytes pt },
   { s with cks := k.1, ns := s.ns + 1 })

/-- Derive and collect the skipped message keys for counters
`i, i+1, ..., i+fuel-1` of a receiving chain. -/
def skipKeysAux : Nat → Nat → Nat → Nat → Nat × List SkippedKey
  | 0, ck, _, _ => (ck, [])
  | fuel + 1, ck, i, pk =>
    let k := kdfCk ck
    let rest := skipKeysAux fuel k.1 (i + 1) pk
    (rest.1, ⟨pk, i, k.2⟩ :: rest.2)

/-- Modelled from the spec (§4.5 step 4): derive and cache message keys
for every counter in the gap `[i, target)` of a receiving chain. -/
def skipKeys (ck i target pk : Nat) : Nat × List SkippedKey :=
  skipKeysAux (target - i) ck i pk

/-- Modelled from the spec (§4.5 step 4): DoubleRatchet::ratchet_decrypt.
Consume a cached skipped key when one matches the header; otherwise
perform a DH ratchet step when the header carries a new remote key
(caching the old chain's gap first), cache the gap of the current chain,
derive the message key for counter n and advance Nr. -/
def ratchet_decrypt (s : DoubleRatchet) (headerBytes : List Nat)
    (ct : CipherText) (ad : List Nat) :
    Option (List Nat × DoubleRatchet) :=
  match decodeHeaderJson headerBytes with
  | none => none
  | some h =>
    match s.mk_skipped.find? fun sk =>
        sk.public_key == h.public_key && sk.n == h.n with
    | some sk =>
      (aeadDecrypt sk.msg_key ad ct).map fun pt =>
        (pt, { s with mk_skipped := s.mk_skipped.filter fun sk2 =>
                 !(sk2.public_key == h.public_key && sk2.n == h.n) })
    | none =>
      if h.public_key = s.dh_public_r then
        let g := skipKeys s.ckr s.nr h.n h.public_key
        let k := kdfCk g.1
        (aeadDecrypt k.2 ad ct).map fun pt =>
          (pt, { s with ckr := k.1, nr := h.n + 1
                        mk_skipped := s.mk_skipped ++ g.2 })
      else
        let oldGap := (skipKeys s.ckr s.nr h.pn s.dh_public_r).2
        let r := kdfRk s.rk (dh s.dhs h.public_key)
        let newDhs := Nat.pair s.dhs 3
        let snd := kdfRk r.1 (dh newDhs h.public_key)
        let g := skipKeys r.2 0 h.n h.public_key
        let k := kdfCk g.1
        (aeadDecrypt k.2 ad ct).map fun pt =>
          (pt, { rk := snd.1, dhs := newDhs, dh_public_r := h.public_key
                 cks := snd.2, ckr := k.1, ns := 0, nr := h.n + 1
                 pn := s.ns
                 mk_skipped := s.mk_skipped ++ oldGap ++ g.2 })

/-- The error taxonomy of the pipeline as surfaced by messages.rs:
`notFound` is the rusqlite QueryReturnedNoRows of load_ratchet_state,
`corruptState` a serde/parse failure on a present row, `missingHandshake`
the "Missing x3dh_init in first message header" context error,
`headerParseFailed` the "Failed to parse header JSON" context error and
`sendFailed` a transport failure on /message/send. -/
inductive MsgError where
  | notFound
  | corruptState
  | missingHandshake
  | headerParseFailed
  | sendFailed
deriving Repr, DecidableEq

/-- A persisted ratchet_states row's state_data: either a well-formed
serialized DoubleRatchet or malformed text that fails to parse. -/
inductive Blob where
  | good (s : DoubleRatchet)
  | bad (junk : Nat)
deriving Repr, DecidableEq

/-- The ratchet_states table: rows keyed by the session-key string. -/
abbrev Db := List (String × Blob)

def dbLookup (db : Db) (k : String) : Option Blob :=
  (db.find? fun e => e.1 == k).map fun e => e.2

def dbInsertOrReplace : Db → String → Blob → Db
  | [], k, v => [(k, v)]
  | e :: rest, k, v =>
    if e.1 = k then (k, v) :: rest else e :: dbInsertOrReplace rest k v

/-- The composite storage key of save_ratchet_state/load_ratchet_state:
`format!("{}:{}", current_user, username)`. -/
def sessionKey (current_user username : String) : String :=
  current_user ++ ":" ++ username

def decEqExcept {α β : Type} [DecidableEq α] [DecidableEq β] :
    DecidableEq (Except α β)
  | .error x, .error y =>
    match decEq x y with
    | isTrue h => isTrue (h ▸ rfl)
    | isFalse h => isFalse fun hc => h (by cases hc; rfl)
  | .error _, .ok _ => isFalse fun hc => by cases hc
  | .ok _, .error _ => isFalse fun hc => by cases hc
  | .ok x, .ok y =>
    match decEq x y with
    | isTrue h => isTrue (h ▸ rfl)
    | isFalse h => isFalse fun hc => h (by cases hc; rfl)

instance {α β : Type} [DecidableEq α] [DecidableEq β] :
    DecidableEq (Except α β) := decEqExcept

/-- load_ratchet_state (src/messages.rs:426): SELECT the row for
`current_user:username`; no row is a query error (NotFound), a present
but unparseable row is a serde error (CorruptState). -/
def load_ratchet_state (db : Db) (current_user username : String) :
    Except MsgError DoubleRatchet :=
  match dbLookup db (sessionKey current_user username) with
  | none => .error .notFound
  | some (.good s) => .ok s
  | some (.bad _) => .error .corruptState

/-- save_ratchet_state (src/messages.rs:406): INSERT OR REPLACE the row
for `current_user:username`. -/
def save_ratchet_state (db : Db) (current_user username : String)
    (state : DoubleRatchet) : Db :=
  dbInsertOrReplace db (sessionKey current_user username) (.good state)

/-- An envelope as handed to the relay: base64-decoded header bytes
(32 associated-data bytes then the structured header) and ciphertext. -/
structure Envelope where
  header : List Nat
  ciphertext : CipherText
deriving Repr, DecidableEq

/-- Observable side effects of the outbound path, in order. -/
inductive Effect where
  | saveState (key : String) (s : DoubleRatchet)
  | transmit (e : Envelope)
deriving Repr, DecidableEq

structure SendResult where
  result : Except MsgError Unit
  db : Db
  envelope : Option Envelope
  trace : List Effect
deriving Repr, DecidableEq

/-- send_message (src/messages.rs:11): load-or-establish the session
(`is_first_message = load_ratchet_state(..).is_err()`), encrypt, persist
the advanced state, merge x3dh_init into the header when this send
created the session, then transmit. `transportOk` is the relay's
response status. -/
def send_message (a : Account) (owner recipient : String)
    (bundle : KeyBundle) (message : List Nat) (db : Db)
    (transportOk : Bool) : SendResult :=
  let pair : DoubleRatchet × Option X3dhInit :=
    match load_ratchet_state db owner recipient with
    | .error _ =>
      let r := initiate_key_agreement a bundle
      (new_sender r.rk r.alice_dhs r.bob_public_key,
       some { sender_identity := r.alice_identity_pub
              one_time_pre_key := r.bob_one_time_pre_key })
    | .ok s => (s, none)
  let enc := ratchet_encrypt pair.1 message
  let db1 := save_ratchet_state db owner recipient enc.2
  match pair.2 with
  | some meta =>
    match decodeHeaderJson (enc.1.header.drop 32) with
    | none =>
      { result := .error .headerParseFailed, db := db1, envelope := none
        trace := [.saveState (sessionKey owner recipient) enc.2] }
    | some hj =>
      let fullHeader := enc.1.header.take 32 ++
        encodeHeaderJson { hj with x3dh_init := some meta }
      let env : Envelope :=
        { header := fullHeader, ciphertext := enc.1.cipher_text }
      { result := if transportOk then .ok () else .error .sendFailed
        db := db1, envelope := some env
        trace := [.saveState (sessionKey owner recipient) enc.2,
                  .transmit env] }
  | none =>
    let env : Envelope :=
      { header := enc.1.header, ciphertext := enc.1.cipher_text }
    { result := if transportOk then .ok () else .error .sendFailed
      db := db1, envelope := some env
      trace := [.saveState (sessionKey owner recipient) enc.2,
                .transmit env] }

/-- is_old_message (src/messages.rs:283): true when the header's remote
key equals the session's current remote key and the counter has already
been passed, or when the skipped-key cache holds an entry for
`(public_key, n)`. The source nests the first test in two ifs and falls
through to the cache scan; the conjunction is the same function. -/
def is_old_message (ratchet_state : DoubleRatchet) (header : ParsedHeader)
    (header_dh_public : Nat) : Bool :=
  if ratchet_state.dh_public_r = header_dh_public ∧
      header.n < ratchet_state.nr then true
  else ratchet_state.mk_skipped.any fun skipped =>
    skipped.public_key == header.public_key && skipped.n == header.n

/-- One element of the fetched message batch, after base64 decoding:
`msg["username"]`, decoded ciphertext and decoded full header. -/
structure InboundMsg where
  username : String
  ciphertext : CipherText
  fullHeader : List Nat
deriving Repr, DecidableEq

/-- get_or_initialize_receiver_ratchet (src/messages.rs:303): reuse a
loadable session (`if let Ok(state) = load_ratchet_state`) and otherwise
require x3dh_init and run the responder path. Any load failure — not
found or corrupt — falls through to establishment. -/
def get_or_initialize_receiver_ratchet (acc : Account) (db : Db)
    (owner sender : String) (header_json : HeaderJson)
    (alice_dh_public : Nat) : Except MsgError DoubleRatchet :=
  match load_ratchet_state db owner sender with
  | .ok state => .ok state
  | .error _ =>
    match header_json.x3dh_init with
    | none => .error .missingHandshake
    | some x =>
      let shared := respond_to_key_agreement acc x.sender_identity
        alice_dh_public x.one_time_pre_key
      let bob_dh_keypair := get_pre_key_pair acc
      .ok (new_receiver shared bob_dh_keypair alice_dh_public)

/-- Outcome of processing one inbound message: `processed` is Ok(true)
with the displayed plaintext, `ignored` is Ok(false) for an old message,
`errored` a propagated error, `panicked` an unhandled panic (the
unchecked `&full_header[0..32]` slice, or a decrypt that cannot
succeed — the source calls ratchet_decrypt without error handling). -/
inductive ProcOutcome where
  | processed (pt : List Nat)
  | ignored
  | errored (e : MsgError)
  | panicked
deriving Repr, DecidableEq

structure ProcResult where
  outcome : ProcOutcome
  db : Db
deriving Repr, DecidableEq

/-- process_received_message (src/messages.rs:245): slice the 32
associated-data bytes (panicking when fewer are present), parse the
structured header, drop old messages per is_old_message, otherwise
load-or-establish the receiver ratchet, decrypt and persist. The
ParsedHeader is what read_header returns once the JSON parse has
succeeded. -/
def process_received_message (acc : Account) (owner : String)
    (m : InboundMsg) (db : Db) : ProcResult :=
  if m.fullHeader.length < 32 then { outcome := .panicked, db := db }
  else
    let associated_data := m.fullHeader.take 32
    let headerBytes := m.fullHeader.drop 32
    match decodeHeaderJson headerBytes with
    | none => { outcome := .errored .headerParseFailed, db := db }
    | some header_json =>
      let parsed : ParsedHeader :=
        { public_key := header_json.public_key, n := header_json.n
          pn := header_json.pn }
      let alice_dh_public := parsed.public_key
      let old := match load_ratchet_state db owner m.username with
        | .ok s => is_old_message s parsed alice_dh_public
        | .error _ => false
      if old then { outcome := .ignored, db := db }
      else
        match get_or_initialize_receiver_ratchet acc db owner m.username
            header_json alice_dh_public with
        | .error e => { outcome := .errored e, db := db }
        | .ok r0 =>
          match ratchet_decrypt r0 headerBytes m.ciphertext
              associated_data with
          | none => { outcome := .panicked, db := db }
          | some pr =>
            let db1 := save_ratchet_state db owner m.username pr.2
            { outcome := .processed pr.1, db := db1 }

structure BatchResult where
  newCount : Nat
  db : Db
  halted : Bool
deriving Repr, DecidableEq

/-- The per-message loop of fetch_messages (src/messages.rs:222): a
failed message is reported and the loop continues with the rest; only a
panic unwinds the whole fetch. -/
def fetch_messages_loop (acc : Account) (owner : String) :
    List InboundMsg → Db → BatchResult
  | [], db => { newCount := 0, db := db, halted := false }
  | m :: rest, db =>
    let r := process_received_message acc owner m db
    match r.outcome with
    | .panicked => { newCount := 0, db := r.db, halted := true }
    | .processed _ =>
      let b := fetch_messages_loop acc owner rest r.db
      { newCount := b.newCount + 1, db := b.db, halted := b.halted }
    | .ignored => fetch_messages_loop acc owner rest r.db
    | .errored _ => fetch_messages_loop acc owner rest r.db

/-! ### Helper lemmas about the store and the wire format -/

theorem dbLookup_insertOrReplace (db : Db) (k : String) (v : Blob) :
    dbLookup (dbInsertOrReplace db k v) k = some v := by
  induction db with
  | nil => simp [dbInsertOrReplace, dbLookup, List.find?]
  | cons e rest ih =>
    by_cases h : e.1 = k
    · simp [dbInsertOrReplace, h, dbLookup, List.find?]
    · simp only [dbInsertOrReplace, if_neg h]
      simp only [dbLookup, List.find?] at ih ⊢
      have hbeq : (e.1 == k) = false := beq_false_of_ne h
      rw [hbeq]
      exact ih

theorem dbLookup_insertOrReplace_ne (db : Db) (k k2 : String) (v : Blob)
    (hne : k2 ≠ k) :
    dbLookup (dbInsertOrReplace db k v) k2 = dbLookup db k2 := by
  induction db with
  | nil =>
    simp [dbInsertOrReplace, dbLookup, List.find?, beq_false_of_ne hne,
      beq_false_of_ne (Ne.symm hne)]
  | cons e rest ih =>
    by_cases h : e.1 = k
    · simp [dbInsertOrReplace, h, dbLookup, List.find?,
        beq_false_of_ne (Ne.symm hne)]
    · simp only [dbInsertOrReplace, if_neg h]
      simp only [dbLookup, List.find?] at ih ⊢
      cases hbeq : (e.1 == k2) <;> simp [ih]

theorem dbLookup_single (k : String) (v : Blob) :
    dbLookup [(k, v)] k = some v := by
  simp [dbLookup, List.find?]

theorem load_after_save (db : Db) (owner peer : String) (s : DoubleRatchet) :
    load_ratchet_state (save_ratchet_state db owner peer s) owner peer =
      .ok s := by
  simp [load_ratchet_state, save_ratchet_state, dbLookup_insertOrReplace]

theorem full_len (l : List Nat) : ¬ (adBytes ++ l).length < 32 := by
  rw [List.length_append]
  have h : adBytes.length = 32 := rfl
  omega

theorem full_lt (l : List Nat) :
    ((adBytes ++ l).length < 32) = False := eq_false (full_len l)

theorem full_take (l : List Nat) : (adBytes ++ l).take 32 = adBytes := by
  have h : adBytes.length = 32 := by simp [adBytes]
  rw [← h]
  exact List.take_left adBytes l

theorem full_drop (l : List Nat) : (adBytes ++ l).drop 32 = l := by
  have h : adBytes.length = 32 := by simp [adBytes]
  rw [← h]
  exact List.drop_left adBytes l

/-! ### The first-send shape of the outbound path -/

/-- The ratchet state send_message creates on the initiator path, before
the encrypt step advances it. -/
def firstSendState (a : Account) (bundle : KeyBundle) : DoubleRatchet :=
  let r := initiate_key_agreement a bundle
  new_sender r.rk r.alice_dhs r.bob_public_key

/-- The first envelope of a session, as send_message emits it: the
associated-data block, the structured header with x3dh_init merged in,
and the AEAD ciphertext under the first sending-chain message key. -/
def firstSendEnv (a : Account) (bundle : KeyBundle) (m : List Nat) :
    Envelope :=
  { header := adBytes ++ encodeHeaderJson
      { public_key := pub (genEph a), n := 0, pn := 0
        x3dh_init := some { sender_identity := pub a.idPriv
                            one_time_pre_key := bundle.one_time_pre_key } }
    ciphertext := aeadEncrypt (kdfCk (firstSendState a bundle).cks).2
      adBytes m }

theorem send_when_load_fails (a : Account) (oA oB : String)
    (bundle : KeyBundle) (m : List Nat) (db : Db) (tOk : Bool)
    (e : MsgError) (h : load_ratchet_state db oA oB = .error e) :
    send_message a oA oB bundle m db tOk =
      { result := if tOk then .ok () else .error .sendFailed
        db := save_ratchet_state db oA oB
          (ratchet_encrypt (firstSendState a bundle) m).2
        envelope := some (firstSendEnv a bundle m)
        trace := [.saveState (sessionKey oA oB)
            (ratchet_encrypt (firstSendState a bundle) m).2,
          .transmit (firstSendEnv a bundle m)] } := by
  unfold send_message
  rw [h]
  rfl

theorem send_when_load_ok (a : Account) (oA oB : String)
    (bundle : KeyBundle) (m : List Nat) (db : Db) (tOk : Bool)
    (s : DoubleRatchet) (h : load_ratchet_state db oA oB = .ok s) :
    send_message a oA oB bundle m db tOk =
      { result := if tOk then .ok () else .error .sendFailed
        db := save_ratchet_state db oA oB (ratchet_encrypt s m).2
        envelope := some { header := (ratchet_encrypt s m).1.header
                           ciphertext := (ratchet_encrypt s m).1.cipher_text }
        trace := [.saveState (sessionKey oA oB) (ratchet_encrypt s m).2,
          .transmit { header := (ratchet_encrypt s m).1.header
                      ciphertext := (ratchet_encrypt s m).1.cipher_text }] } := by
  unfold send_message
  rw [h]

/-! ### The first-receive shape of the inbound path -/

/-- An element of the fetched batch built from an envelope and its
sender's username. -/
def inboundOf (sender : String) (e : Envelope) : InboundMsg :=
  { username := sender, ciphertext := e.ciphertext, fullHeader := e.header }

/-- The responder-path ratchet the receiver establishes from a first
envelope of `a`, before decrypting. -/
def recvEstablished (a b : Account) : DoubleRatchet :=
  new_receiver
    (respond_to_key_agreement b (pub a.idPriv) (pub (genEph a))
      ((bundleOf b).one_time_pre_key))
    (get_pre_key_pair b) (pub (genEph a))

/-- The receiver's persisted state after decrypting the first envelope:
receiving chain advanced once, Nr = 1. -/
def recvState1 (a b : Account) : DoubleRatchet :=
  { recvEstablished a b with
    ckr := (kdfCk (recvEstablished a b).ckr).1, nr := 1 }

theorem process_first (a b : Account) (oA oB : String) (m : List Nat) :
    process_received_message b oB (inboundOf oA (firstSendEnv a (bundleOf b) m)) [] =
      { outcome := .processed m
        db := [(sessionKey oB oA, .good (recvState1 a b))] } := by
  unfold process_received_message inboundOf firstSendEnv
  rw [if_neg (full_len _)]
  simp only [full_take, full_drop, decode_encode]
  simp [load_ratchet_state, dbLookup, List.find?,
    get_or_initialize_receiver_ratchet, ratchet_decrypt, decode_encode,
    is_old_message, recvState1, recvEstablished, respond_to_key_agreement,
    get_pre_key_pair, new_receiver, firstSendState, new_sender,
    initiate_key_agreement, bundleOf, x3dhShared, kdfRk, kdfCk, dh, pub,
    genEph, skipKeys, skipKeysAux, aeadDecrypt, aeadEncrypt,
    save_ratchet_state, sessionKey, dbInsertOrReplace, Nat.mul_comm, encOpt]

theorem process_first_again (a b : Account) (oA oB : String) (m : List Nat) :
    process_received_message b oB (inboundOf oA (firstSendEnv a (bundleOf b) m))
        [(sessionKey oB oA, .good (recvState1 a b))] =
      { outcome := .ignored
        db := [(sessionKey oB oA, .good (recvState1 a b))] } := by
  unfold process_received_message inboundOf firstSendEnv
  rw [if_neg (full_len _)]
  simp only [full_take, full_drop, decode_encode]
  simp [load_ratchet_state, dbLookup, List.find?, is_old_message,
    recvState1, recvEstablished, new_receiver, firstSendState, new_sender,
    initiate_key_agreement, bundleOf, respond_to_key_agreement,
    get_pre_key_pair, x3dhShared, kdfRk, kdfCk, dh, pub, genEph]

/-! ### Envelope observers and concrete scenario -/

/-- The send counter an envelope's structured header carries. -/
def envCounter (e : Envelope) : Option Nat :=
  (decodeHeaderJson (e.header.drop 32)).map fun h => h.n

/-- Whether an envelope's structured header carries x3dh_init. -/
def envHasX3dh (e : Envelope) : Bool :=
  match decodeHeaderJson (e.header.drop 32) with
  | some hj => hj.x3dh_init.isSome
  | none => false

/-- Decrypt a ciphertext with the skipped-key-cache entry stored for
`(pk, n)` in the session at `key`, if one exists. -/
def cacheDecrypt (db : Db) (key : String) (pk n : Nat) (ct : CipherText) :
    Option (List Nat) :=
  match dbLookup db key with
  | some (.good s) =>
    match s.mk_skipped.find? fun sk =>
        sk.public_key == pk && sk.n == n with
    | some sk => aeadDecrypt sk.msg_key adBytes ct
    | none => none
  | _ => none

/-- Concrete scenario: Alice (accounts are private key material). -/
def aliceAcc : Account := { idPriv := 2, preKeyPriv := 4, oneTimePriv := none }

/-- Concrete scenario: Bob. -/
def bobAcc : Account := { idPriv := 3, preKeyPriv := 5, oneTimePriv := some 7 }

def noEnv : Envelope := { header := [], ciphertext := { msg_key := 0, ad := [], pt := [] } }

/-- Alice sends `m` to Bob against her current store `db`. -/
def sendA (m : List Nat) (db : Db) : SendResult :=
  send_message aliceAcc "alice" "bob" (bundleOf bobAcc) m db true

/-- Alice's four consecutive envelopes, counters 0..3, and the stores in
between. -/
def envA0 : Envelope := (sendA [100] []).envelope.getD noEnv
def dbA1 : Db := (sendA [100] []).db
def envA1 : Envelope := (sendA [101] dbA1).envelope.getD noEnv
def dbA2 : Db := (sendA [101] dbA1).db
def envA2 : Envelope := (sendA [102] dbA2).envelope.getD noEnv
def dbA3 : Db := (sendA [102] dbA2).db
def envA3 : Envelope := (sendA [103] dbA3).envelope.getD noEnv

/-- Bob processes an envelope from Alice against his store. -/
def procB (e : Envelope) (db : Db) : ProcResult :=
  process_received_message bobAcc "bob" (inboundOf "alice" e) db

/-- Bob's store after processing counter 0 (session established). -/
def dbB1 : Db := (procB envA0 []).db

/-- Bob's store after then processing counter 3: the gap counters 1 and 2
have been derived into the skipped-key cache. -/
def dbB2 : Db := (procB envA3 dbB1).db

/-! ### Claim theorems -/

/-- C1: the claim says a skip-cache hit is consumed for decryption and
the plaintext returned. In the code, is_old_message classifies a
skip-cache hit as old and process_received_message returns Ok(false),
discarding the envelope. Concretely: Bob processes counters 0 then 3,
leaving cached keys for counters 1 and 2 under the remote public key 7;
the cached entry for (7, 1) decrypts envelope 1's ciphertext to [101],
yet delivering envelope 1 yields `ignored` with the store untouched (the
entry is not consumed and no plaintext is returned). -/
theorem c1_skip_cache_hit_discarded :
    (procB envA0 ([] : Db)).outcome = ProcOutcome.processed [100] ∧
    (procB envA3 dbB1).outcome = ProcOutcome.processed [103] ∧
    cacheDecrypt dbB2 (sessionKey "bob" "alice") 7 1 envA1.ciphertext =
      some [101] ∧
    procB envA1 dbB2 = { outcome := ProcOutcome.ignored, db := dbB2 } :=
  ⟨rfl, rfl, rfl, rfl⟩

/-- C2: the claim says the delivery order 2, 0, 1 of counters 0, 1, 2 of
one fresh sending chain succeeds for all three. In the code the first
delivery (counter 2) fails with the missing-handshake error, because
only the counter-0 envelope carries x3dh_init and no session exists yet;
the remaining deliveries of counters 0 and 1 then succeed in order. -/
theorem c2_order_2_0_1_first_fails :
    procB envA2 ([] : Db) =
      { outcome := ProcOutcome.errored MsgError.missingHandshake
        db := [] } ∧
    (procB envA0 ((procB envA2 ([] : Db)).db)).outcome =
      ProcOutcome.processed [100] ∧
    (procB envA1 ((procB envA0 ((procB envA2 ([] : Db)).db)).db)).outcome =
      ProcOutcome.processed [101] :=
  ⟨rfl, rfl, rfl⟩

/-- An inbound message whose base64-decoded full header is 3 bytes,
shorter than the 32-byte associated-data block. -/
def shortHeaderMsg : InboundMsg :=
  { username := "alice"
    ciphertext := { msg_key := 0, ad := [], pt := [] }
    fullHeader := [1, 2, 3] }

/-- C10: a full header shorter than 32 bytes makes the unchecked
`&full_header[0..32]` slice panic rather than surface an
InvalidEnvelope-style error; the panic unwinds the whole fetch loop. -/
theorem c10_short_header_panics :
    process_received_message bobAcc "bob" shortHeaderMsg [] =
      { outcome := ProcOutcome.panicked, db := [] } ∧
    (fetch_messages_loop bobAcc "bob" [shortHeaderMsg] []).halted = true :=
  ⟨rfl, rfl⟩

/-- A store whose row for (alice, bob) is present but malformed. -/
def corruptedAliceBob : Db := [(sessionKey "alice" "bob", Blob.bad 0)]

/-- C6 counterexample: loading the malformed row does surface
CorruptState, but send_message then silently treats the failure as "no
session exists": it establishes a brand-new session (the envelope
carries x3dh_init) and overwrites the record with the fresh state —
precisely what the claim says must not happen. -/
theorem c6_counterexample :
    load_ratchet_state corruptedAliceBob "alice" "bob" =
      .error .corruptState ∧
    (send_message aliceAcc "alice" "bob" (bundleOf bobAcc) [1]
        corruptedAliceBob true).envelope.map envHasX3dh = some true ∧
    dbLookup (send_message aliceAcc "alice" "bob" (bundleOf bobAcc) [1]
        corruptedAliceBob true).db (sessionKey "alice" "bob") =
      some (Blob.good
        (ratchet_encrypt (firstSendState aliceAcc (bundleOf bobAcc)) [1]).2) :=
  ⟨rfl, rfl, rfl⟩

/-- C9 counterexample: the storage key `owner ++ ":" ++ peer` is not
injective — the distinct pairs ("a", "b:c") and ("a:b", "c") map to the
same row key "a:b:c". -/
theorem c9_counterexample :
    sessionKey "a" "b:c" = sessionKey "a:b" "c" ∧
    (("a" : String) == "a:b") = false ∧
    (("b:c" : String) == "c") = false :=
  ⟨by decide, by decide, by decide⟩

/-- The envelope a non-first send emits for state `s`. -/
def envOf (s : DoubleRatchet) (m : List Nat) : Envelope :=
  { header := (ratchet_encrypt s m).1.header
    ciphertext := (ratchet_encrypt s m).1.cipher_text }

theorem envCounter_encrypt (s : DoubleRatchet) (m : List Nat) :
    envCounter (envOf s m) = some s.ns := by
  show (decodeHeaderJson ((adBytes ++ encodeHeaderJson
    { public_key := pub s.dhs, n := s.ns, pn := s.pn
      x3dh_init := none }).drop 32)).map _ = _
  rw [full_drop, decode_encode]
  rfl

theorem envCounter_first (a : Account) (bundle : KeyBundle) (m : List Nat) :
    envCounter (firstSendEnv a bundle m) = some 0 := by
  show (decodeHeaderJson ((adBytes ++ encodeHeaderJson
    { public_key := pub (genEph a), n := 0, pn := 0
      x3dh_init := some { sender_identity := pub a.idPriv
                          one_time_pre_key := bundle.one_time_pre_key } }).drop
      32)).map _ = _
  rw [full_drop, decode_encode]
  rfl

theorem envHasX3dh_encrypt (s : DoubleRatchet) (m : List Nat) :
    envHasX3dh (envOf s m) = false := by
  unfold envHasX3dh envOf
  rw [show (ratchet_encrypt s m).1.header = adBytes ++ encodeHeaderJson
    { public_key := pub s.dhs, n := s.ns, pn := s.pn, x3dh_init := none }
    from rfl, full_drop, decode_encode]
  rfl

theorem envHasX3dh_first (a : Account) (bundle : KeyBundle) (m : List Nat) :
    envHasX3dh (firstSendEnv a bundle m) = true := by
  unfold envHasX3dh
  rw [show ((firstSendEnv a bundle m).header.drop 32) = encodeHeaderJson
    { public_key := pub (genEph a), n := 0, pn := 0
      x3dh_init := some { sender_identity := pub a.idPriv
                          one_time_pre_key := bundle.one_time_pre_key } }
    from full_drop _, decode_encode]
  rfl

/-- C4: round-trip over a freshly established session: for every payload
and every pair of accounts, B's inbound processing of A's first outbound
envelope returns exactly the sent payload. -/
theorem c4_first_message_roundtrip :
    ∀ (a b : Account) (oA oB : String) (m : List Nat),
    ∃ env, (send_message a oA oB (bundleOf b) m [] true).envelope = some env ∧
      (process_received_message b oB (inboundOf oA env) []).outcome =
        ProcOutcome.processed m := by
  intro a b oA oB m
  refine ⟨firstSendEnv a (bundleOf b) m, ?_, ?_⟩
  · rw [send_when_load_fails a oA oB (bundleOf b) m [] true .notFound rfl]
  · rw [process_first]

/-- C3: an inbound envelope whose header key equals the session's current
remote ratchet key and whose counter is below Nr is classified old and
discarded with the store untouched; and a first-exchange envelope
delivered twice yields the plaintext once and a no-op the second time,
with the persisted state unchanged between the deliveries. -/
theorem c3_stale_discarded :
    (∀ (acc : Account) (owner : String) (m : InboundMsg) (db : Db)
      (s : DoubleRatchet) (hj : HeaderJson),
      ¬ m.fullHeader.length < 32 →
      decodeHeaderJson (m.fullHeader.drop 32) = some hj →
      load_ratchet_state db owner m.username = .ok s →
      s.dh_public_r = hj.public_key →
      hj.n < s.nr →
      process_received_message acc owner m db =
        { outcome := .ignored, db := db }) ∧
    (∀ (a b : Account) (oA oB : String) (m : List Nat) (env : Envelope),
      (send_message a oA oB (bundleOf b) m [] true).envelope = some env →
      (process_received_message b oB (inboundOf oA env) []).outcome =
        ProcOutcome.processed m ∧
      process_received_message b oB (inboundOf oA env)
          (process_received_message b oB (inboundOf oA env) []).db =
        { outcome := .ignored
          db := (process_received_message b oB (inboundOf oA env) []).db }) := by
  constructor
  · intro acc owner m db s hj h32 hdec hload hpk hn
    have h32f : (m.fullHeader.length < 32) = False := eq_false h32
    simp only [process_received_message, h32f, if_false, hdec, hload]
    simp [is_old_message, hpk, hn]
  · intro a b oA oB m env henv
    rw [send_when_load_fails a oA oB (bundleOf b) m [] true .notFound rfl]
      at henv
    injection henv with henv
    subst henv
    refine ⟨?_, ?_⟩
    · rw [process_first]
    · rw [process_first]
      exact process_first_again a b oA oB m

/-- C5: an inbound envelope with no prior session and no x3dh_init in its
header fails with the missing-handshake error, the store is untouched,
and the fetch loop carries on with the rest of the batch exactly as if
the envelope had not been there. -/
theorem c5_missing_handshake :
    ∀ (acc : Account) (owner : String) (m : InboundMsg) (db : Db)
      (l : List Nat) (hj : HeaderJson) (rest : List InboundMsg),
      m.fullHeader = adBytes ++ l →
      decodeHeaderJson l = some hj →
      hj.x3dh_init = none →
      load_ratchet_state db owner m.username = .error .notFound →
      process_received_message acc owner m db =
        { outcome := .errored .missingHandshake, db := db } ∧
      fetch_messages_loop acc owner (m :: rest) db =
        fetch_messages_loop acc owner rest db := by
  intro acc owner m db l hj rest hfull hdec hx hload
  have hp : process_received_message acc owner m db =
      { outcome := .errored .missingHandshake, db := db } := by
    simp only [process_received_message, hfull, full_lt, if_false,
      full_take, full_drop, hdec, hload, get_or_initialize_receiver_ratchet,
      hx]
    rfl
  exact ⟨hp, by simp only [fetch_messages_loop, hp]⟩

/-- C6 (amended): loading a malformed persisted row surfaces a
CorruptState error scoped to that single session — rows under other keys
load exactly as before — but the callers test only for failure, so the
corrupt record is then silently treated like a missing session:
send_message establishes a brand-new session, emits the handshake
envelope and overwrites the corrupt record with the fresh state. -/
theorem c6_corrupt_scoped_but_treated_as_absent :
    ∀ (db : Db) (owner peer : String) (j : Nat) (a : Account)
      (bundle : KeyBundle) (m : List Nat) (tOk : Bool),
      load_ratchet_state
          (dbInsertOrReplace db (sessionKey owner peer) (.bad j))
          owner peer = .error .corruptState ∧
      (∀ o2 p2 : String, sessionKey o2 p2 ≠ sessionKey owner peer →
        load_ratchet_state
            (dbInsertOrReplace db (sessionKey owner peer) (.bad j)) o2 p2 =
          load_ratchet_state db o2 p2) ∧
      (send_message a owner peer bundle m
          (dbInsertOrReplace db (sessionKey owner peer) (.bad j))
          tOk).envelope = some (firstSendEnv a bundle m) ∧
      dbLookup (send_message a owner peer bundle m
          (dbInsertOrReplace db (sessionKey owner peer) (.bad j)) tOk).db
          (sessionKey owner peer) =
        some (.good (ratchet_encrypt (firstSendState a bundle) m).2) := by
  intro db owner peer j a bundle m tOk
  have hload : load_ratchet_state
      (dbInsertOrReplace db (sessionKey owner peer) (.bad j)) owner peer =
      .error .corruptState := by
    simp [load_ratchet_state, dbLookup_insertOrReplace]
  refine ⟨hload, ?_, ?_, ?_⟩
  · intro o2 p2 hne
    unfold load_ratchet_state
    rw [dbLookup_insertOrReplace_ne _ _ _ _ hne]
  · rw [send_when_load_fails a owner peer bundle m _ tOk _ hload]
  · rw [send_when_load_fails a owner peer bundle m _ tOk _ hload]
    simp [save_ratchet_state, dbLookup_insertOrReplace]

/-- C7: every outbound send records the advanced ratchet state (Ns one
past the envelope's counter) in the store, with the save effect strictly
before the transmit effect in the trace; a transport failure surfaces
SendFailed with the state already advanced, and the next send of the
session carries the next counter rather than replaying the failed
one. -/
theorem c7_persist_before_transmit :
    ∀ (a : Account) (owner rec : String) (bundle : KeyBundle)
      (m m2 : List Nat) (db : Db) (tOk : Bool),
    ∃ (s1 : DoubleRatchet) (env : Envelope) (n0 : Nat),
      (send_message a owner rec bundle m db tOk).trace =
        [Effect.saveState (sessionKey owner rec) s1, Effect.transmit env] ∧
      (send_message a owner rec bundle m db tOk).envelope = some env ∧
      dbLookup (send_message a owner rec bundle m db tOk).db
          (sessionKey owner rec) = some (.good s1) ∧
      envCounter env = some n0 ∧
      s1.ns = n0 + 1 ∧
      (send_message a owner rec bundle m db tOk).result =
        (if tOk then .ok () else .error .sendFailed) ∧
      (∃ env2,
        (send_message a owner rec bundle m2
            (send_message a owner rec bundle m db tOk).db true).envelope =
          some env2 ∧
        envCounter env2 = some (n0 + 1)) := by
  intro a owner rec bundle m m2 db tOk
  cases hL : load_ratchet_state db owner rec with
  | error e =>
    have hs := send_when_load_fails a owner rec bundle m db tOk e hL
    have hdb : (send_message a owner rec bundle m db tOk).db =
        save_ratchet_state db owner rec
          (ratchet_encrypt (firstSendState a bundle) m).2 := by rw [hs]
    have hload2 : load_ratchet_state
        (send_message a owner rec bundle m db tOk).db owner rec =
        .ok (ratchet_encrypt (firstSendState a bundle) m).2 := by
      rw [hdb]
      exact load_after_save db owner rec _
    refine ⟨(ratchet_encrypt (firstSendState a bundle) m).2,
      firstSendEnv a bundle m, 0, by rw [hs], by rw [hs], ?_,
      envCounter_first a bundle m, rfl, ?_, ?_⟩
    · rw [hdb]
      simp [save_ratchet_state, dbLookup_insertOrReplace]
    · rw [hs]
    · refine ⟨envOf (ratchet_encrypt (firstSendState a bundle) m).2 m2,
        ?_, ?_⟩
      · rw [send_when_load_ok a owner rec bundle m2 _ true _ hload2]
        rfl
      · exact envCounter_encrypt _ m2
  | ok s =>
    have hs := send_when_load_ok a owner rec bundle m db tOk s hL
    have hdb : (send_message a owner rec bundle m db tOk).db =
        save_ratchet_state db owner rec (ratchet_encrypt s m).2 := by
      rw [hs]
    have hload2 : load_ratchet_state
        (send_message a owner rec bundle m db tOk).db owner rec =
        .ok (ratchet_encrypt s m).2 := by
      rw [hdb]
      exact load_after_save db owner rec _
    refine ⟨(ratchet_encrypt s m).2,
      { header := (ratchet_encrypt s m).1.header
        ciphertext := (ratchet_encrypt s m).1.cipher_text },
      s.ns, by rw [hs], by rw [hs], ?_, envCounter_encrypt s m, rfl, ?_, ?_⟩
    · rw [hdb]
      simp [save_ratchet_state, dbLookup_insertOrReplace]
    · rw [hs]
    · refine ⟨envOf (ratchet_encrypt s m).2 m2, ?_, ?_⟩
      · rw [send_when_load_ok a owner rec bundle m2 _ true _ hload2]
        rfl
      · exact envCounter_encrypt _ m2

/-- C8: an outbound envelope carries x3dh_init exactly when the session
load failed at the start of the send — in particular it does carry it
when no row exists, it does not when a well-formed row exists, and every
send after one completed send (which persists a well-formed row) omits
it. -/
theorem c8_handshake_iff_new_session :
    ∀ (a : Account) (owner rec : String) (bundle : KeyBundle)
      (m : List Nat) (db : Db) (tOk : Bool),
    ∃ env,
      (send_message a owner rec bundle m db tOk).envelope = some env ∧
      (envHasX3dh env = true ↔
        (∃ e, load_ratchet_state db owner rec = .error e)) ∧
      (dbLookup db (sessionKey owner rec) = none → envHasX3dh env = true) ∧
      ((∃ s, dbLookup db (sessionKey owner rec) = some (.good s)) →
        envHasX3dh env = false) ∧
      (∀ (m2 : List Nat) (tOk2 : Bool), ∃ env2,
        (send_message a owner rec bundle m2
            (send_message a owner rec bundle m db tOk).db tOk2).envelope =
          some env2 ∧
        envHasX3dh env2 = false) := by
  intro a owner rec bundle m db tOk
  cases hL : load_ratchet_state db owner rec with
  | error e =>
    have hs := send_when_load_fails a owner rec bundle m db tOk e hL
    have hdb : (send_message a owner rec bundle m db tOk).db =
        save_ratchet_state db owner rec
          (ratchet_encrypt (firstSendState a bundle) m).2 := by rw [hs]
    have hload2 : load_ratchet_state
        (send_message a owner rec bundle m db tOk).db owner rec =
        .ok (ratchet_encrypt (firstSendState a bundle) m).2 := by
      rw [hdb]
      exact load_after_save db owner rec _
    refine ⟨firstSendEnv a bundle m, by rw [hs],
      iff_of_true (envHasX3dh_first a bundle m) ⟨e, rfl⟩,
      fun _ => envHasX3dh_first a bundle m, ?_, ?_⟩
    · rintro ⟨s, hsrow⟩
      have hok : load_ratchet_state db owner rec = .ok s := by
        unfold load_ratchet_state
        rw [hsrow]
      rw [hok] at hL
      exact Except.noConfusion hL
    · intro m2 tOk2
      refine ⟨envOf (ratchet_encrypt (firstSendState a bundle) m).2 m2,
        ?_, ?_⟩
      · rw [send_when_load_ok a owner rec bundle m2 _ tOk2 _ hload2]
        rfl
      · exact envHasX3dh_encrypt _ m2
  | ok s =>
    have hs := send_when_load_ok a owner rec bundle m db tOk s hL
    have hdb : (send_message a owner rec bundle m db tOk).db =
        save_ratchet_state db owner rec (ratchet_encrypt s m).2 := by
      rw [hs]
    have hload2 : load_ratchet_state
        (send_message a owner rec bundle m db tOk).db owner rec =
        .ok (ratchet_encrypt s m).2 := by
      rw [hdb]
      exact load_after_save db owner rec _
    refine ⟨envOf s m, by rw [hs]; rfl, ?_, ?_,
      fun _ => envHasX3dh_encrypt s m, ?_⟩
    · refine iff_of_false ?_ ?_
      · rw [envHasX3dh_encrypt s m]
        exact fun h => Bool.noConfusion h
      · rintro ⟨e, he⟩
        exact Except.noConfusion he
    · intro hnone
      have herr : load_ratchet_state db owner rec = .error .notFound := by
        unfold load_ratchet_state
        rw [hnone]
      rw [herr] at hL
      exact Except.noConfusion hL
    · intro m2 tOk2
      refine ⟨envOf (ratchet_encrypt s m).2 m2, ?_, ?_⟩
      · rw [send_when_load_ok a owner rec bundle m2 _ tOk2 _ hload2]
        rfl
      · exact envHasX3dh_encrypt _ m2

theorem colon_data : (":" : String).data = [':'] := rfl

theorem sep_inj (x : Char) (a : List Char) : ∀ (c b d : List Char),
    x ∉ a → x ∉ c → a ++ x :: b = c ++ x :: d → a = c ∧ b = d := by
  induction a with
  | nil =>
    intro c b d _ hc h
    cases c with
    | nil =>
      simp only [List.nil_append, List.cons.injEq] at h
      exact ⟨rfl, h.2⟩
    | cons y cs =>
      simp only [List.nil_append, List.cons_append, List.cons.injEq] at h
      rcases h with ⟨hxy, _⟩
      subst hxy
      exact absurd (List.mem_cons_self x cs) hc
  | cons z zs ih =>
    intro c b d ha hc h
    cases c with
    | nil =>
      simp only [List.cons_append, List.nil_append, List.cons.injEq] at h
      rcases h with ⟨hzx, _⟩
      subst hzx
      exact absurd (List.mem_cons_self z zs) ha
    | cons y cs =>
      simp only [List.cons_append, List.cons.injEq] at h
      rcases h with ⟨hzy, hrest⟩
      have hzs : x ∉ zs := fun hm => ha (List.mem_cons_of_mem _ hm)
      have hcs : x ∉ cs := fun hm => hc (List.mem_cons_of_mem _ hm)
      rcases ih cs b d hzs hcs hrest with ⟨h1, h2⟩
      exact ⟨by rw [hzy, h1], h2⟩

/-- C9 (amended): load after store returns the stored record for the
same (owner, peer) pair, and the composite key `owner ++ ":" ++ peer`
determines the pair — hence at most one row per pair — provided the
owner identities contain no ':' character; with a ':' in a username the
key is not injective (see the counterexample). -/
theorem c9_roundtrip_and_injective_for_colon_free :
    (∀ (db : Db) (owner peer : String) (s : DoubleRatchet),
      load_ratchet_state (save_ratchet_state db owner peer s) owner peer =
        .ok s) ∧
    (∀ o1 p1 o2 p2 : String, ':' ∉ o1.data → ':' ∉ o2.data →
      sessionKey o1 p1 = sessionKey o2 p2 → o1 = o2 ∧ p1 = p2) := by
  constructor
  · exact load_after_save
  · intro o1 p1 o2 p2 h1 h2 h
    have hd : o1.data ++ ':' :: p1.data = o2.data ++ ':' :: p2.data := by
      have h3 := congrArg String.data h
      simpa [sessionKey, String.data_append, colon_data] using h3
    rcases sep_inj ':' o1.data o2.data p1.data p2.data h1 h2 hd with
      ⟨ha, hb⟩
    exact ⟨String.ext ha, String.ext hb⟩

/-! ### Witnesses -/

/-- A concrete session state whose current remote ratchet key is 7 and
whose receiving counter has reached 5. -/
def staleState : DoubleRatchet :=
  { rk := 0, dhs := 0, dh_public_r := 7, cks := 0, ckr := 0, ns := 0
    nr := 5, pn := 0, mk_skipped := [] }

def staleDb : Db := [(sessionKey "bob" "alice", .good staleState)]

/-- An envelope from the current remote key with counter 2 < Nr = 5. -/
def staleMsg : InboundMsg :=
  { username := "alice"
    ciphertext := { msg_key := 0, ad := [], pt := [] }
    fullHeader := adBytes ++ encodeHeaderJson
      { public_key := 7, n := 2, pn := 0, x3dh_init := none } }

theorem c3_witness :
    process_received_message bobAcc "bob" staleMsg staleDb =
      { outcome := .ignored, db := staleDb } ∧
    ((process_received_message bobAcc "bob"
        (inboundOf "alice" (firstSendEnv aliceAcc (bundleOf bobAcc) [42]))
        []).outcome = ProcOutcome.processed [42] ∧
      process_received_message bobAcc "bob"
          (inboundOf "alice" (firstSendEnv aliceAcc (bundleOf bobAcc) [42]))
          (process_received_message bobAcc "bob"
            (inboundOf "alice" (firstSendEnv aliceAcc (bundleOf bobAcc) [42]))
            []).db =
        { outcome := .ignored
          db := (process_received_message bobAcc "bob"
            (inboundOf "alice" (firstSendEnv aliceAcc (bundleOf bobAcc) [42]))
            []).db }) :=
  ⟨c3_stale_discarded.1 bobAcc "bob" staleMsg staleDb staleState
      { public_key := 7, n := 2, pn := 0, x3dh_init := none }
      (by decide) (by decide) (by decide) (by decide) (by decide),
    c3_stale_discarded.2 aliceAcc bobAcc "alice" "bob" [42]
      (firstSendEnv aliceAcc (bundleOf bobAcc) [42]) (by decide)⟩

/-- An envelope with a well-formed header but no x3dh_init, from a peer
with no session. -/
def noHandshakeMsg : InboundMsg :=
  { username := "alice"
    ciphertext := { msg_key := 0, ad := [], pt := [] }
    fullHeader := adBytes ++ encodeHeaderJson
      { public_key := 9, n := 3, pn := 0, x3dh_init := none } }

theorem c5_witness :
    process_received_message bobAcc "bob" noHandshakeMsg [] =
      { outcome := .errored .missingHandshake, db := [] } ∧
    fetch_messages_loop bobAcc "bob" [noHandshakeMsg] [] =
      fetch_messages_loop bobAcc "bob" [] [] :=
  c5_missing_handshake bobAcc "bob" noHandshakeMsg []
    (encodeHeaderJson { public_key := 9, n := 3, pn := 0, x3dh_init := none })
    { public_key := 9, n := 3, pn := 0, x3dh_init := none } []
    rfl rfl rfl rfl

theorem c6_witness :
    load_ratchet_state
        (dbInsertOrReplace [] (sessionKey "alice" "bob") (.bad 0))
        "alice" "bob" = .error .corruptState ∧
    (∀ o2 p2 : String, sessionKey o2 p2 ≠ sessionKey "alice" "bob" →
      load_ratchet_state
          (dbInsertOrReplace [] (sessionKey "alice" "bob") (.bad 0)) o2 p2 =
        load_ratchet_state [] o2 p2) ∧
    (send_message aliceAcc "alice" "bob" (bundleOf bobAcc) [1]
        (dbInsertOrReplace [] (sessionKey "alice" "bob") (.bad 0))
        true).envelope =
      some (firstSendEnv aliceAcc (bundleOf bobAcc) [1]) ∧
    dbLookup (send_message aliceAcc "alice" "bob" (bundleOf bobAcc) [1]
        (dbInsertOrReplace [] (sessionKey "alice" "bob") (.bad 0)) true).db
        (sessionKey "alice" "bob") =
      some (.good (ratchet_encrypt
        (firstSendState aliceAcc (bundleOf bobAcc)) [1]).2) :=
  c6_corrupt_scoped_but_treated_as_absent [] "alice" "bob" 0 aliceAcc
    (bundleOf bobAcc) [1] true

theorem c7_witness :
    ∃ (s1 : DoubleRatchet) (env : Envelope) (n0 : Nat),
      (send_message aliceAcc "alice" "bob" (bundleOf bobAcc) [1] []
        false).trace =
        [Effect.saveState (sessionKey "alice" "bob") s1,
          Effect.transmit env] ∧
      (send_message aliceAcc "alice" "bob" (bundleOf bobAcc) [1] []
        false).envelope = some env ∧
      dbLookup (send_message aliceAcc "alice" "bob" (bundleOf bobAcc) [1]
          [] false).db (sessionKey "alice" "bob") = some (.good s1) ∧
      envCounter env = some n0 ∧
      s1.ns = n0 + 1 ∧
      (send_message aliceAcc "alice" "bob" (bundleOf bobAcc) [1] []
        false).result = (if false then .ok () else .error .sendFailed) ∧
      (∃ env2,
        (send_message aliceAcc "alice" "bob" (bundleOf bobAcc) [2]
            (send_message aliceAcc "alice" "bob" (bundleOf bobAcc) [1] []
              false).db true).envelope = some env2 ∧
        envCounter env2 = some (n0 + 1)) :=
  c7_persist_before_transmit aliceAcc "alice" "bob" (bundleOf bobAcc)
    [1] [2] [] false

theorem c8_witness :
    ∃ env,
      (send_message aliceAcc "alice" "bob" (bundleOf bobAcc) [1] []
        true).envelope = some env ∧
      (envHasX3dh env = true ↔
        (∃ e, load_ratchet_state [] "alice" "bob" = .error e)) ∧
      (dbLookup [] (sessionKey "alice" "bob") = none →
        envHasX3dh env = true) ∧
      ((∃ s, dbLookup [] (sessionKey "alice" "bob") = some (.good s)) →
        envHasX3dh env = false) ∧
      (∀ (m2 : List Nat) (tOk2 : Bool), ∃ env2,
        (send_message aliceAcc "alice" "bob" (bundleOf bobAcc) m2
            (send_message aliceAcc "alice" "bob" (bundleOf bobAcc) [1] []
              true).db tOk2).envelope = some env2 ∧
        envHasX3dh env2 = false) :=
  c8_handshake_iff_new_session aliceAcc "alice" "bob" (bundleOf bobAcc)
    [1] [] true

theorem c9_witness :
    load_ratchet_state (save_ratchet_state [] "u" "v" staleState)
      "u" "v" = .ok staleState ∧ ("u" = "u" ∧ "v" = "v") :=
  ⟨c9_roundtrip_and_injective_for_colon_free.1 [] "u" "v" staleState,
    c9_roundtrip_and_injective_for_colon_free.2 "u" "v" "u" "v"
      (by decide) (by decide) rfl⟩

end Dood
